import Mathlib

/-!
# Verification of the Li-Fi Smart Canteen order core (src/main.py, src/schemas.py)

Shallow embedding of the order-processing core of the canteen backend:
order creation (`create_order`), status updates (`update_order_status`),
the simulated optical acknowledgement (`lifi_send`) and the analytics
aggregations (`analytics_daily`).  Prices and totals are embedded as
rationals (`ℚ`), quantities as `Nat`, timestamps as `Int` (UTC instants),
and the Mongo order collection as an association list from `_id` strings
to stored order documents.  Errors raised via `HTTPException` become the
`Except HTTPException` error branch; handlers that mutate the store are
embedded as functions returning the new store together with the response.
-/

namespace Canteen

/-- Embeds `schemas.OrderItem`: item_id, title snapshot, qty (`ge=1` in the
schema), unit price snapshot (`ge=0`). -/
structure OrderItem where
  item_id : String
  title : String
  qty : Nat
  price : ℚ
  deriving DecidableEq, Repr

/-- Embeds `schemas.Order` as stored in the `order` collection.  The fields
through `qr_code` come from `schemas.Order`; `created_at`/`updated_at` are the
timestamps the persistence layer attaches.  `created_at`/`updated_at` are
modelled from the spec: `database.py` (imported by `src/main.py` but not part
of the sources) stamps documents, and spec §3 records that orders carry
`created_at`/`updated_at` UTC timestamps. -/
structure Order where
  user_id : String
  items : List OrderItem
  total : ℚ
  payment_method : String
  status : String
  eta_minutes : Nat
  qr_code : Option String
  created_at : Int
  updated_at : Int
  deriving DecidableEq, Repr

/-- Embeds `fastapi.HTTPException` as raised by the handlers: a status code
and a detail message. -/
structure HTTPException where
  status_code : Nat
  detail : String
  deriving DecidableEq, Repr

/-- The Mongo `order` collection: documents keyed by their `_id` string. -/
abbrev OrderStore : Type := List (String × Order)

/-- `db["order"].find_one({"_id": oid})`: the first document whose id matches. -/
def findOrder (store : OrderStore) (oid : String) : Option Order :=
  (List.find? (fun p => p.1 == oid) store).map Prod.snd

/-- `db["order"].update_one({"_id": oid}, {"$set": ...})` followed by reading
back: replace the document stored under `oid` (ids are unique in Mongo, so
mapping over the list matches `update_one`'s single-document update). -/
def setOrder (store : OrderStore) (oid : String) (o : Order) : OrderStore :=
  List.map (fun p => if p.1 == oid then (p.1, o) else p) store

/-- `POST /api/orders` (`create_order`, src/main.py lines 141–159): computes
`total = sum(it.qty * it.price)`, `eta = max(10, 5 * len(items))`, the QR
payload string, and builds the order with status `"Pending"`.  `now_iso` is
`datetime.utcnow().isoformat()` and `now` the creation instant the
persistence layer stamps into `created_at`/`updated_at`. -/
def create_order (user_id : String) (items : List OrderItem)
    (payment_method : String) (now_iso : String) (now : Int) : Order :=
  let total : ℚ := (items.map (fun it => (it.qty : ℚ) * it.price)).sum
  let eta : Nat := max 10 (5 * items.length)
  let qr_content : String :=
    "ORDER|" ++ user_id ++ "|" ++ now_iso ++ "|" ++ toString total
  { user_id := user_id
    items := items
    total := total
    payment_method := payment_method
    status := "Pending"
    eta_minutes := eta
    qr_code := some qr_content
    created_at := now
    updated_at := now }

/-- The four status literals recognised by `update_order_status`
(src/main.py line 175). -/
def valid_statuses : List String := ["Pending", "Preparing", "Ready", "Completed"]

/-- `PUT /api/orders/{order_id}/status` (`update_order_status`, src/main.py
lines 173–181): reject a status outside `valid_statuses` with 400 before
touching the collection; otherwise `update_one` on the id — if no document
matched, 404; else set `status` and `updated_at` and return the updated
document.  The result pairs the store after the call with the response. -/
def update_order_status (store : OrderStore) (order_id : String)
    (status : String) (now : Int) : OrderStore × Except HTTPException Order :=
  if status ∈ valid_statuses then
    match findOrder store order_id with
    | none => (store, Except.error ⟨404, "Order not found"⟩)
    | some o =>
        let o' : Order := { o with status := status, updated_at := now }
        (setOrder store order_id o', Except.ok o')
  else
    (store, Except.error ⟨400, "Invalid status"⟩)

/-- The acknowledgement record returned by `lifi_send`. -/
structure AckResponse where
  status : String
  received : Bool
  order_id : String
  effect : String
  deriving DecidableEq, Repr

/-- `POST /api/lifi/send` (`lifi_send`, src/main.py lines 218–226): look up
the order (404 when absent), unconditionally set its status to
`"Preparing"` with a fresh `updated_at`, and return the ACK record.  The
request's `payload` dict is bound but never read by the handler, so it is
embedded as a parameter of arbitrary type `α`. -/
def lifi_send {α : Type} (store : OrderStore) (order_id : String) (payload : α)
    (now : Int) : OrderStore × Except HTTPException AckResponse :=
  match findOrder store order_id with
  | none => (store, Except.error ⟨404, "Order not found"⟩)
  | some o =>
      let store' := setOrder store order_id
        { o with status := "Preparing", updated_at := now }
      let _ := payload
      (store', Except.ok
        { status := "ACK", received := true, order_id := order_id
          effect := "Order moved to Preparing" })

/-- The `$match`/`$group` pipeline of `analytics_daily` (src/main.py lines
195–199): keep orders with `created_at ≥ start`, then `$group` them into a
single `(total_sales, orders)` document — Mongo's `$group` emits no document
when nothing matched, hence the empty list in that case. -/
def daily_pipeline (store : OrderStore) (start : Int) : List (ℚ × Nat) :=
  let ms := List.filter (fun p => start ≤ p.2.created_at) store
  if ms.isEmpty then []
  else [((ms.map (fun p => p.2.total)).sum, ms.length)]

/-- The daily-totals part of `GET /api/analytics/daily` (src/main.py lines
193–200): `data = result[0] if result else {"total_sales": 0, "orders": 0}`.
`start` is the start of the current UTC day computed by the handler. -/
def analytics_daily_totals (store : OrderStore) (start : Int) : ℚ × Nat :=
  match daily_pipeline store start with
  | [] => (0, 0)
  | d :: _ => d

/-- `$unwind: "$items"` over the whole collection: the flattened list of all
order items across all stored orders (no date filter). -/
def allItems (store : OrderStore) : List OrderItem :=
  List.flatMap store (fun p => p.2.items)

/-- Summed quantity of the flattened items whose title is `t` — the `count`
the `$group` stage accumulates for the group keyed by `t`. -/
def titleCount (store : OrderStore) (t : String) : Nat :=
  ((List.filter (fun it => it.title == t) (allItems store)).map
    (fun it => it.qty)).sum

/-- The descending-count order used by the `$sort: {count: -1}` stage:
`a` comes no later than `b` when `a`'s count is at least `b`'s. -/
def countGE (a b : String × Nat) : Prop := b.2 ≤ a.2

instance : DecidableRel countGE := fun a b => inferInstanceAs (Decidable (b.2 ≤ a.2))

instance : IsTotal (String × Nat) countGE :=
  ⟨fun a b => (Nat.le_total b.2 a.2).imp id id⟩

instance : IsTrans (String × Nat) countGE :=
  ⟨fun _ _ _ hab hbc => Nat.le_trans hbc hab⟩

/-- The top-items pipeline of `GET /api/analytics/daily` (src/main.py lines
202–208): `$unwind` the items of every order, `$group` by `items.title`
summing `items.qty`, `$sort` by `count` descending, `$limit: 5`.  Groups are
keyed by the distinct titles occurring in the flattened items. -/
def top_items (store : OrderStore) : List (String × Nat) :=
  let titles := ((allItems store).map (fun it => it.title)).dedup
  let groups := titles.map (fun t => (t, titleCount store t))
  (List.insertionSort countGE groups).take 5

/-! ## Store lemmas -/

theorem findOrder_cons_pos (p : String × Order) (rest : OrderStore)
    (k : String) (h : (p.1 == k) = true) :
    findOrder (p :: rest) k = some p.2 := by
  unfold findOrder
  rw [List.find?_cons_of_pos]
  · rfl
  · exact h

theorem findOrder_cons_neg (p : String × Order) (rest : OrderStore)
    (k : String) (h : (p.1 == k) = false) :
    findOrder (p :: rest) k = findOrder rest k := by
  unfold findOrder
  rw [List.find?_cons_of_neg]
  simp [h]

theorem setOrder_cons (p : String × Order) (rest : OrderStore)
    (oid : String) (o' : Order) :
    setOrder (p :: rest) oid o'
      = (if (p.1 == oid) = true then (p.1, o') else p) :: setOrder rest oid o' := by
  simp [setOrder]

theorem findOrder_setOrder_of_isSome (store : OrderStore) (oid : String)
    (o' : Order) (h : (findOrder store oid).isSome) :
    findOrder (setOrder store oid o') oid = some o' := by
  induction store with
  | nil => simp [findOrder] at h
  | cons p rest ih =>
      rw [setOrder_cons]
      by_cases hp : (p.1 == oid) = true
      · rw [if_pos hp]
        exact findOrder_cons_pos (p.1, o') _ oid hp
      · have hp' : (p.1 == oid) = false := by simpa using hp
        rw [if_neg hp, findOrder_cons_neg p _ oid hp']
        rw [findOrder_cons_neg p rest oid hp'] at h
        exact ih h

theorem findOrder_setOrder_ne (store : OrderStore) (oid k : String)
    (o' : Order) (h : k ≠ oid) :
    findOrder (setOrder store oid o') k = findOrder store k := by
  induction store with
  | nil => rfl
  | cons p rest ih =>
      rw [setOrder_cons]
      by_cases hp : (p.1 == oid) = true
      · have hpk : (p.1 == k) = false := by
          have hpe : p.1 = oid := by simpa using hp
          exact beq_eq_false_iff_ne.mpr fun hh => h (hpe ▸ hh).symm
        rw [if_pos hp, findOrder_cons_neg (p.1, o') _ k hpk,
          findOrder_cons_neg p _ k hpk, ih]
      · rw [if_neg hp]
        by_cases hk : (p.1 == k) = true
        · rw [findOrder_cons_pos p _ k hk, findOrder_cons_pos p _ k hk]
        · have hk' : (p.1 == k) = false := by simpa using hk
          rw [findOrder_cons_neg p _ k hk', findOrder_cons_neg p _ k hk', ih]

theorem total_preserved_update (store : OrderStore) (oid s : String)
    (now : Int) (k : String) :
    (findOrder (update_order_status store oid s now).1 k).map Order.total
      = (findOrder store k).map Order.total := by
  unfold update_order_status
  by_cases hs : s ∈ valid_statuses
  · rw [if_pos hs]
    cases ho : findOrder store oid with
    | none => rfl
    | some o =>
        by_cases hk : k = oid
        · subst hk
          rw [findOrder_setOrder_of_isSome store k _ (by simp [ho]), ho]
          rfl
        · rw [findOrder_setOrder_ne store oid k _ hk]
  · rw [if_neg hs]

theorem total_preserved_lifi {α : Type} (store : OrderStore) (oid : String)
    (payload : α) (now : Int) (k : String) :
    (findOrder (lifi_send store oid payload now).1 k).map Order.total
      = (findOrder store k).map Order.total := by
  unfold lifi_send
  cases ho : findOrder store oid with
  | none => rfl
  | some o =>
      by_cases hk : k = oid
      · subst hk
        rw [findOrder_setOrder_of_isSome store k _ (by simp [ho]), ho]
        rfl
      · rw [findOrder_setOrder_ne store oid k _ hk]

/-! ## Claims -/

/-- C1: an order created by `create_order` stores `total` equal to the sum
over its items of `qty * price` (0 for an empty item list), and neither the
status-update operation nor the acknowledgement operation ever changes the
`total` of any stored order. -/
theorem create_order_total_spec (user_id pm now_iso : String)
    (items : List OrderItem) (now : Int) :
    ((create_order user_id items pm now_iso now).total
        = (items.map (fun it => (it.qty : ℚ) * it.price)).sum)
    ∧ (create_order user_id [] pm now_iso now).total = 0
    ∧ (∀ (store : OrderStore) (oid s k : String) (tm : Int),
        (findOrder (update_order_status store oid s tm).1 k).map Order.total
          = (findOrder store k).map Order.total)
    ∧ (∀ (store : OrderStore) (oid : String) (payload : Unit) (tm : Int)
        (k : String),
        (findOrder (lifi_send store oid payload tm).1 k).map Order.total
          = (findOrder store k).map Order.total) := by
  refine ⟨rfl, rfl, ?_, ?_⟩
  · intro store oid s k tm
    exact total_preserved_update store oid s tm k
  · intro store oid payload tm k
    exact total_preserved_lifi store oid payload tm k

/-- C2: an order created by `create_order` stores
`eta_minutes = max 10 (5 * items.length)` — counting line items, not total
quantity — and an empty item list yields `eta_minutes = 10`. -/
theorem create_order_eta_spec (user_id pm now_iso : String)
    (items : List OrderItem) (now : Int) :
    (create_order user_id items pm now_iso now).eta_minutes
        = max 10 (5 * items.length)
    ∧ (create_order user_id [] pm now_iso now).eta_minutes = 10 :=
  ⟨rfl, rfl⟩

theorem update_order_status_of_found (store : OrderStore) (oid s : String)
    (now : Int) (o : Order) (hs : s ∈ valid_statuses)
    (ho : findOrder store oid = some o) :
    update_order_status store oid s now
      = (setOrder store oid { o with status := s, updated_at := now },
         Except.ok { o with status := s, updated_at := now }) := by
  unfold update_order_status
  rw [if_pos hs, ho]

theorem lifi_send_of_found {α : Type} (store : OrderStore) (oid : String)
    (p : α) (now : Int) (o : Order) (ho : findOrder store oid = some o) :
    lifi_send store oid p now
      = (setOrder store oid { o with status := "Preparing", updated_at := now },
         Except.ok { status := "ACK", received := true, order_id := oid,
                     effect := "Order moved to Preparing" }) := by
  unfold lifi_send
  rw [ho]

/-! ## Concrete sample data -/

/-- A sample stored order used to instantiate the theorems. -/
def exOrder : Order :=
  { user_id := "u1", items := [⟨"m1", "Samosa", 2, 15⟩], total := 30
    payment_method := "cash", status := "Pending", eta_minutes := 10
    qr_code := none, created_at := 0, updated_at := 0 }

/-- A sample one-order collection. -/
def exStore : OrderStore := [("o1", exOrder)]

/-- C3: the status-update operation fails with 400 "Invalid status" exactly
when the requested status is outside the four literals; fails with 404
"Order not found" exactly when the status is valid but the id resolves to no
order; and otherwise writes the order with the new status and a fresh
`updated_at` into the store and returns that updated order. -/
theorem update_order_status_spec (store : OrderStore) (oid s : String)
    (now : Int) :
    ((update_order_status store oid s now).2
        = Except.error ⟨400, "Invalid status"⟩ ↔ s ∉ valid_statuses)
    ∧ ((update_order_status store oid s now).2
        = Except.error ⟨404, "Order not found"⟩
        ↔ s ∈ valid_statuses ∧ findOrder store oid = none)
    ∧ (∀ o : Order, s ∈ valid_statuses → findOrder store oid = some o →
        update_order_status store oid s now
          = (setOrder store oid { o with status := s, updated_at := now },
             Except.ok { o with status := s, updated_at := now })) := by
  by_cases hs : s ∈ valid_statuses
  · cases ho : findOrder store oid with
    | none =>
        refine ⟨?_, ?_, ?_⟩
        · simp [update_order_status, hs, ho]
        · simp [update_order_status, hs, ho]
        · intro o _ hoo
          exact absurd hoo (by simp)
    | some o =>
        refine ⟨?_, ?_, ?_⟩
        · simp [update_order_status, hs, ho]
        · simp [update_order_status, hs, ho]
        · intro o' _ hoo
          injection hoo with hoo
          subst hoo
          simp [update_order_status, hs, ho]
  · refine ⟨?_, ?_, ?_⟩
    · simp [update_order_status, hs]
    · simp [update_order_status, hs]
    · intro o hs' _
      exact absurd hs' hs

/-- Witness for C3: updating the sample order to "Ready" stores and returns
it with the new status and timestamp. -/
theorem update_order_status_spec_witness :
    update_order_status exStore "o1" "Ready" 5
      = (setOrder exStore "o1" { exOrder with status := "Ready", updated_at := 5 },
         Except.ok { exOrder with status := "Ready", updated_at := 5 }) :=
  (update_order_status_spec exStore "o1" "Ready" 5).2.2 exOrder (by decide) rfl

/-- C4: an invalid requested status makes the status-update operation fail
with 400 "Invalid status" and return the store exactly as it was — every
stored order keeps every field, including `status` and `updated_at`. -/
theorem update_order_status_invalid_spec (store : OrderStore) (oid s : String)
    (now : Int) (h : s ∉ valid_statuses) :
    update_order_status store oid s now
      = (store, Except.error ⟨400, "Invalid status"⟩) := by
  unfold update_order_status
  rw [if_neg h]

/-- Witness for C4: requesting the unrecognised status "Done" fails with 400
and leaves the sample store untouched. -/
theorem update_order_status_invalid_spec_witness :
    update_order_status exStore "o1" "Done" 5
      = (exStore, Except.error ⟨400, "Invalid status"⟩) :=
  update_order_status_invalid_spec exStore "o1" "Done" 5 (by decide)

/-- C9: validity is checked before existence — with an invalid status and an
id matching no stored order, the operation fails with 400 "Invalid status"
(never 404), the store is returned unchanged (no write), and the response is
the same for every store contents (no read of the collection). -/
theorem update_order_status_order_of_checks (store alt : OrderStore)
    (oid s : String) (now : Int) (h : s ∉ valid_statuses)
    (_habs : findOrder store oid = none) :
    (update_order_status store oid s now).2
        = Except.error ⟨400, "Invalid status"⟩
    ∧ (update_order_status store oid s now).2
        ≠ Except.error ⟨404, "Order not found"⟩
    ∧ (update_order_status store oid s now).1 = store
    ∧ (update_order_status store oid s now).2
        = (update_order_status alt oid s now).2 := by
  refine ⟨?_, ?_, ?_, ?_⟩ <;>
    simp [update_order_status, h]

/-- Witness for C9: status "Done" on an id absent from the sample store
yields 400, not 404, and reads nothing. -/
theorem update_order_status_order_of_checks_witness :
    (update_order_status exStore "zzz" "Done" 5).2
        = Except.error ⟨400, "Invalid status"⟩
    ∧ (update_order_status exStore "zzz" "Done" 5).2
        ≠ Except.error ⟨404, "Order not found"⟩
    ∧ (update_order_status exStore "zzz" "Done" 5).1 = exStore
    ∧ (update_order_status exStore "zzz" "Done" 5).2
        = (update_order_status [] "zzz" "Done" 5).2 :=
  update_order_status_order_of_checks exStore [] "zzz" "Done" 5 (by decide) rfl

/-- C5: for an existing order — whatever its current status — the
acknowledgement operation rewrites the store with that order forced to
status "Preparing" and a fresh `updated_at`, and returns the ACK record
echoing the given id; for an absent id it fails with 404 and leaves the
store exactly as it was. -/
theorem lifi_send_spec (store : OrderStore) (oid : String) (payload : Unit)
    (now : Int) :
    (∀ o : Order, findOrder store oid = some o →
        lifi_send store oid payload now
          = (setOrder store oid { o with status := "Preparing", updated_at := now },
             Except.ok { status := "ACK", received := true, order_id := oid,
                         effect := "Order moved to Preparing" })
        ∧ findOrder (lifi_send store oid payload now).1 oid
            = some { o with status := "Preparing", updated_at := now })
    ∧ (findOrder store oid = none →
        lifi_send store oid payload now
          = (store, Except.error ⟨404, "Order not found"⟩)) := by
  constructor
  · intro o ho
    constructor
    · simp [lifi_send, ho]
    · have h1 : (lifi_send store oid payload now).1
          = setOrder store oid { o with status := "Preparing", updated_at := now } := by
        simp [lifi_send, ho]
      rw [h1]
      exact findOrder_setOrder_of_isSome store oid _ (by simp [ho])
  · intro ho
    simp [lifi_send, ho]

/-- Witness for C5: acknowledging the sample order (status "Pending")
forces it to "Preparing" and returns the ACK record. -/
theorem lifi_send_spec_witness :
    lifi_send exStore "o1" () 7
      = (setOrder exStore "o1" { exOrder with status := "Preparing", updated_at := 7 },
         Except.ok { status := "ACK", received := true, order_id := "o1",
                     effect := "Order moved to Preparing" })
    ∧ findOrder (lifi_send exStore "o1" () 7).1 "o1"
        = some { exOrder with status := "Preparing", updated_at := 7 } :=
  (lifi_send_spec exStore "o1" () 7).1 exOrder rfl

/-- C6: repeating either operation on the same order is idempotent on the
order's status: a second identical valid status update leaves the status it
already has (the requested one), and a second acknowledgement leaves the
status "Preparing", exactly as after one. -/
theorem status_ops_idempotent (store : OrderStore) (oid s : String)
    (t1 t2 : Int) (o : Order) (hs : s ∈ valid_statuses)
    (ho : findOrder store oid = some o) :
    ((findOrder (update_order_status
          (update_order_status store oid s t1).1 oid s t2).1 oid).map Order.status
        = (findOrder (update_order_status store oid s t1).1 oid).map Order.status
      ∧ (findOrder (update_order_status store oid s t1).1 oid).map Order.status
        = some s)
    ∧ ((findOrder (lifi_send (lifi_send store oid () t1).1 oid () t2).1 oid).map
          Order.status
        = (findOrder (lifi_send store oid () t1).1 oid).map Order.status
      ∧ (findOrder (lifi_send store oid () t1).1 oid).map Order.status
        = some "Preparing") := by
  have hsome : (findOrder store oid).isSome := by simp [ho]
  have hst1 : (update_order_status store oid s t1).1
      = setOrder store oid { o with status := s, updated_at := t1 } := by
    rw [update_order_status_of_found store oid s t1 o hs ho]
  have h1 : findOrder (update_order_status store oid s t1).1 oid
      = some { o with status := s, updated_at := t1 } := by
    rw [hst1]
    exact findOrder_setOrder_of_isSome store oid _ hsome
  have hsome1 : (findOrder (update_order_status store oid s t1).1 oid).isSome := by
    simp [h1]
  have hst2 : (update_order_status
        (update_order_status store oid s t1).1 oid s t2).1
      = setOrder (update_order_status store oid s t1).1 oid
          { o with status := s, updated_at := t2 } := by
    rw [update_order_status_of_found _ oid s t2 _ hs h1]
  have h2 : findOrder (update_order_status
        (update_order_status store oid s t1).1 oid s t2).1 oid
      = some { o with status := s, updated_at := t2 } := by
    rw [hst2]
    exact findOrder_setOrder_of_isSome _ oid _ hsome1
  have hl1 : (lifi_send store oid () t1).1
      = setOrder store oid { o with status := "Preparing", updated_at := t1 } := by
    rw [lifi_send_of_found store oid () t1 o ho]
  have g1 : findOrder (lifi_send store oid () t1).1 oid
      = some { o with status := "Preparing", updated_at := t1 } := by
    rw [hl1]
    exact findOrder_setOrder_of_isSome store oid _ hsome
  have gsome1 : (findOrder (lifi_send store oid () t1).1 oid).isSome := by
    simp [g1]
  have hl2 : (lifi_send (lifi_send store oid () t1).1 oid () t2).1
      = setOrder (lifi_send store oid () t1).1 oid
          { o with status := "Preparing", updated_at := t2 } := by
    rw [lifi_send_of_found _ oid () t2 _ g1]
  have g2 : findOrder (lifi_send (lifi_send store oid () t1).1 oid () t2).1 oid
      = some { o with status := "Preparing", updated_at := t2 } := by
    rw [hl2]
    exact findOrder_setOrder_of_isSome _ oid _ gsome1
  refine ⟨⟨?_, ?_⟩, ⟨?_, ?_⟩⟩
  · rw [h2, h1]
    rfl
  · rw [h1]
    rfl
  · rw [g2, g1]
    rfl
  · rw [g1]
    rfl

/-- Witness for C6: two identical "Ready" updates and two acknowledgements
of the sample order each leave the status the one application gives. -/
theorem status_ops_idempotent_witness :
    ((findOrder (update_order_status
          (update_order_status exStore "o1" "Ready" 1).1 "o1" "Ready" 2).1 "o1").map
            Order.status
        = (findOrder (update_order_status exStore "o1" "Ready" 1).1 "o1").map
            Order.status
      ∧ (findOrder (update_order_status exStore "o1" "Ready" 1).1 "o1").map
            Order.status
        = some "Ready")
    ∧ ((findOrder (lifi_send (lifi_send exStore "o1" () 1).1 "o1" () 2).1 "o1").map
          Order.status
        = (findOrder (lifi_send exStore "o1" () 1).1 "o1").map Order.status
      ∧ (findOrder (lifi_send exStore "o1" () 1).1 "o1").map Order.status
        = some "Preparing") :=
  status_ops_idempotent exStore "o1" "Ready" 1 2 exOrder (by decide) rfl

/-- C10: the acknowledgement ignores the request payload — for an existing
order, calls with any two payloads (even of different types) produce the
same store and the same response, and the order ends with status
"Preparing". -/
theorem lifi_send_payload_independent {α β : Type} (store : OrderStore)
    (oid : String) (p1 : α) (p2 : β) (now : Int) (o : Order)
    (ho : findOrder store oid = some o) :
    lifi_send store oid p1 now = lifi_send store oid p2 now
    ∧ (findOrder (lifi_send store oid p1 now).1 oid).map Order.status
        = some "Preparing" := by
  constructor
  · simp [lifi_send, ho]
  · have h1 : (lifi_send store oid p1 now).1
        = setOrder store oid { o with status := "Preparing", updated_at := now } := by
      rw [lifi_send_of_found store oid p1 now o ho]
    rw [h1, findOrder_setOrder_of_isSome store oid _ (by simp [ho])]
    rfl

/-- Witness for C10: acknowledging the sample order with a number or with a
string payload gives identical results, and the order ends "Preparing". -/
theorem lifi_send_payload_independent_witness :
    lifi_send exStore "o1" (42 : Nat) 3 = lifi_send exStore "o1" "blob" 3
    ∧ (findOrder (lifi_send exStore "o1" (42 : Nat) 3).1 "o1").map Order.status
        = some "Preparing" :=
  lifi_send_payload_independent exStore "o1" (42 : Nat) "blob" 3 exOrder rfl

/-- C7: the daily-totals query returns exactly the pair (sum of `total`,
count) over the stored orders whose `created_at` is at or after the start of
the current UTC day, and in particular the concrete pair `(0, 0)` — never an
absent document — when no order matches. -/
theorem analytics_daily_totals_spec (store : OrderStore) (start : Int) :
    analytics_daily_totals store start
      = (((List.filter (fun p => start ≤ p.2.created_at) store).map
            (fun p => p.2.total)).sum,
         (List.filter (fun p => start ≤ p.2.created_at) store).length) := by
  cases hm : (List.filter (fun p : String × Order =>
      decide (start ≤ p.2.created_at)) store).isEmpty with
  | true =>
      have hnil : List.filter (fun p : String × Order =>
          decide (start ≤ p.2.created_at)) store = [] := by
        simpa using hm
      simp [analytics_daily_totals, daily_pipeline, hnil]
  | false =>
      simp [analytics_daily_totals, daily_pipeline, hm]

/-- Unfolded form of the top-items pipeline, for reasoning about its
stages. -/
theorem top_items_eq (store : OrderStore) :
    top_items store
      = (List.insertionSort countGE
          ((((allItems store).map (fun it => it.title)).dedup).map
            (fun t => (t, titleCount store t)))).take 5 := rfl

/-- C8: the top-items query takes the items of all stored orders (no date
restriction), groups them by title — summing `qty` across every flattened
item bearing that title, so items with equal titles merge regardless of
`item_id` — and returns at most 5 pairs, without repeated titles, sorted so
counts never increase, every returned pair carrying a title occurring in the
flattened items together with its exact summed qty; any occurring title left
out is dominated by every returned pair's count. -/
theorem top_items_spec (store : OrderStore) :
    (top_items store).length ≤ 5
    ∧ List.Pairwise countGE (top_items store)
    ∧ ((top_items store).map Prod.fst).Nodup
    ∧ (∀ q ∈ top_items store,
        q.1 ∈ (allItems store).map OrderItem.title
          ∧ q.2 = titleCount store q.1)
    ∧ (∀ t ∈ (allItems store).map OrderItem.title,
        t ∉ (top_items store).map Prod.fst →
        ∀ q ∈ top_items store, titleCount store t ≤ q.2) := by
  have htop := top_items_eq store
  have hsortfull : List.Pairwise countGE
      (List.insertionSort countGE
        ((((allItems store).map (fun it => it.title)).dedup).map
          (fun t => (t, titleCount store t)))) :=
    List.sorted_insertionSort countGE _
  have hperm : List.Perm
      (List.insertionSort countGE
        ((((allItems store).map (fun it => it.title)).dedup).map
          (fun t => (t, titleCount store t))))
      ((((allItems store).map (fun it => it.title)).dedup).map
        (fun t => (t, titleCount store t))) :=
    List.perm_insertionSort countGE _
  have hmapfst : ((((allItems store).map (fun it => it.title)).dedup).map
      (fun t => (t, titleCount store t))).map Prod.fst
      = ((allItems store).map (fun it => it.title)).dedup := by
    simp [Function.comp_def]
  refine ⟨?_, ?_, ?_, ?_, ?_⟩
  · rw [htop, List.length_take]
    exact min_le_left _ _
  · rw [htop]
    exact hsortfull.sublist (List.take_sublist 5 _)
  · rw [htop, List.map_take]
    refine List.Nodup.sublist (List.take_sublist 5 _) ?_
    refine ((hperm.map Prod.fst).nodup_iff).mpr ?_
    rw [hmapfst]
    exact List.nodup_dedup _
  · intro q hq
    rw [htop] at hq
    have hqg : q ∈ (((allItems store).map (fun it => it.title)).dedup).map
        (fun t => (t, titleCount store t)) :=
      hperm.mem_iff.mp (List.mem_of_mem_take hq)
    obtain ⟨t, ht, rfl⟩ := List.mem_map.mp hqg
    exact ⟨List.mem_dedup.mp ht, rfl⟩
  · intro t ht hnot q hq
    have htS : (t, titleCount store t) ∈ List.insertionSort countGE
        ((((allItems store).map (fun it => it.title)).dedup).map
          (fun t => (t, titleCount store t))) :=
      hperm.mem_iff.mpr
        (List.mem_map_of_mem _ (List.mem_dedup.mpr ht))
    have hPW : List.Pairwise countGE
        ((List.insertionSort countGE
            ((((allItems store).map (fun it => it.title)).dedup).map
              (fun t => (t, titleCount store t)))).take 5
          ++ (List.insertionSort countGE
            ((((allItems store).map (fun it => it.title)).dedup).map
              (fun t => (t, titleCount store t)))).drop 5) := by
      rw [List.take_append_drop]
      exact hsortfull
    have hsplit : (t, titleCount store t) ∈ (List.insertionSort countGE
        ((((allItems store).map (fun it => it.title)).dedup).map
          (fun t => (t, titleCount store t)))).take 5
        ∨ (t, titleCount store t) ∈ (List.insertionSort countGE
        ((((allItems store).map (fun it => it.title)).dedup).map
          (fun t => (t, titleCount store t)))).drop 5 := by
      rw [← List.mem_append, List.take_append_drop]
      exact htS
    cases hsplit with
    | inl hin =>
        exact absurd (htop ▸ List.mem_map_of_mem Prod.fst hin) hnot
    | inr hin =>
        have := (List.pairwise_append.mp hPW).2.2 q (htop ▸ hq)
          (t, titleCount store t) hin
        exact this

/-- Order placing one "Samosa" line with qty 2 (menu item "m1"). -/
def samosaOrder1 : Order :=
  { user_id := "u1", items := [⟨"m1", "Samosa", 2, 15⟩], total := 30
    payment_method := "cash", status := "Pending", eta_minutes := 10
    qr_code := none, created_at := 0, updated_at := 0 }

/-- Order placing one "Samosa" line with qty 3, under a different menu item
id ("m2"). -/
def samosaOrder2 : Order :=
  { user_id := "u2", items := [⟨"m2", "Samosa", 3, 15⟩], total := 45
    payment_method := "upi", status := "Pending", eta_minutes := 10
    qr_code := none, created_at := 0, updated_at := 0 }

/-- Two orders whose line items share the title "Samosa". -/
def samosaStore : OrderStore := [("o1", samosaOrder1), ("o2", samosaOrder2)]

/-- A single order with six distinct line-item titles, so the 5-limit cuts
the least-ordered title "t6". -/
def sixOrder : Order :=
  { user_id := "u3"
    items := [⟨"m1", "t1", 7, 1⟩, ⟨"m2", "t2", 6, 1⟩, ⟨"m3", "t3", 5, 1⟩,
              ⟨"m4", "t4", 4, 1⟩, ⟨"m5", "t5", 3, 1⟩, ⟨"m6", "t6", 2, 1⟩]
    total := 27, payment_method := "card", status := "Pending"
    eta_minutes := 30, qr_code := none, created_at := 0, updated_at := 0 }

/-- The one-order collection holding `sixOrder`. -/
def sixStore : OrderStore := [("o3", sixOrder)]

/-- Witness for C8: the two "Samosa" lines (qty 2 and qty 3, distinct
item ids) merge into one group counting 5, and the title "t6" cut by the
5-limit is dominated by the returned group ("t1", 7). -/
theorem top_items_spec_witness :
    (("Samosa", 5).1 ∈ (allItems samosaStore).map OrderItem.title
      ∧ ("Samosa", 5).2 = titleCount samosaStore ("Samosa", 5).1)
    ∧ titleCount sixStore "t6" ≤ ("t1", 7).2 :=
  ⟨(top_items_spec samosaStore).2.2.2.1 ("Samosa", 5) (by decide),
   (top_items_spec sixStore).2.2.2.2 "t6" (by decide) (by decide)
     ("t1", 7) (by decide)⟩

end Canteen
